import Mathlib

/-!
Shallow embedding of the risk-management and trading-engine core of the
Stock-data repository (src/core/risk_manager.py, src/core/trading_engine.py,
src/config/config.py).

Prices, money and percentages are modelled as rationals; Python dictionaries
become functions `String → Option α`; wall-clock dates become integers (one
per calendar day); Python exceptions raised by the broker client become
`Option` results (`none` = the call raised and the surrounding
`try/except` swallowed the error).
-/

namespace StockData

/-- Python `int(q)` on a float/rational: truncation toward zero. -/
def pyInt (q : ℚ) : ℤ := if q < 0 then ⌈q⌉ else ⌊q⌋

/-- Python truthiness of an `Optional[float]`: `None` and `0.0` are falsy. -/
def qTruthy : Option ℚ → Bool
  | none => false
  | some a => a ≠ 0

/-- Dictionary write `d[k] = v` on a map modelled as a function. -/
def dictInsert {α : Type} (m : String → Option α) (k : String) (v : α) :
    String → Option α :=
  fun q => if q = k then some v else m q

/-- Dictionary delete `del d[k]` on a map modelled as a function. -/
def dictErase {α : Type} (m : String → Option α) (k : String) :
    String → Option α :=
  fun q => if q = k then none else m q

/-- The fields of `config.RiskManagementConfig` used by the risk manager. -/
structure RiskManagementConfig where
  max_position_size_pct : ℚ
  max_total_exposure_pct : ℚ
  position_sizing_method : String
  stop_loss_type : String
  static_stop_loss_pct : ℚ
  dynamic_stop_loss_atr_multiplier : ℚ
  trailing_stop_enabled : Bool
  trailing_stop_activation_pct : ℚ
  trailing_stop_distance_pct : ℚ
  max_daily_loss_pct : ℚ
  max_daily_trades : ℕ
  enable_martingale : Bool
  martingale_max_doublings : ℕ

/-- The default values of `config.RiskManagementConfig` (config.py). -/
def defaultRiskConfig : RiskManagementConfig where
  max_position_size_pct := 0.10
  max_total_exposure_pct := 0.50
  position_sizing_method := "kelly_criterion"
  stop_loss_type := "dynamic"
  static_stop_loss_pct := 0.02
  dynamic_stop_loss_atr_multiplier := 2.0
  trailing_stop_enabled := true
  trailing_stop_activation_pct := 0.015
  trailing_stop_distance_pct := 0.01
  max_daily_loss_pct := 0.05
  max_daily_trades := 20
  enable_martingale := false
  martingale_max_doublings := 2

/-- The mutable fields of `RiskManager` (risk_manager.py `__init__`).
`daily_reset_date` is the calendar date of `daily_reset_time` (its time
component is always midnight and only the date is ever compared). -/
structure RiskManagerState where
  daily_pnl : ℚ
  daily_trades : ℕ
  daily_reset_date : ℤ
  trailing_stops : String → Option ℚ
  consecutive_losses : String → Option ℕ

/-- `RiskManager.reset_daily_stats`, with the wall clock's current calendar
date passed explicitly as `today`. -/
def reset_daily_stats (today : ℤ) (st : RiskManagerState) : RiskManagerState :=
  if st.daily_reset_date < today then
    { st with daily_pnl := 0, daily_trades := 0, daily_reset_date := today }
  else
    st

/-- `RiskManager.can_trade`. The interpolated numbers in the Python failure
messages are elided; the claims only inspect the boolean and the "OK" text. -/
def can_trade (cfg : RiskManagementConfig) (today : ℤ) (account_value : ℚ)
    (st : RiskManagerState) : (Bool × String) × RiskManagerState :=
  let st := reset_daily_stats today st
  let daily_loss_limit := account_value * cfg.max_daily_loss_pct
  if st.daily_pnl < -daily_loss_limit then
    ((false, "Daily loss limit reached"), st)
  else if cfg.max_daily_trades ≤ st.daily_trades then
    ((false, "Daily trade limit reached"), st)
  else
    ((true, "OK"), st)

/-- `RiskManager.record_trade`. -/
def record_trade (st : RiskManagerState) (pnl : ℚ) : RiskManagerState :=
  { st with daily_pnl := st.daily_pnl + pnl, daily_trades := st.daily_trades + 1 }

/-- `RiskManager._fixed_fractional_size`. The `risk_per_share` computed by the
source is bound and never used, exactly as in the Python. -/
def fixed_fractional_size (cfg : RiskManagementConfig)
    (entry_price stop_loss_price account_value current_positions_value : ℚ) : ℤ :=
  let _risk_per_share := |entry_price - stop_loss_price|
  let max_position_value := account_value * cfg.max_position_size_pct
  let remaining_exposure :=
    account_value * cfg.max_total_exposure_pct - current_positions_value
  let max_position_value := min max_position_value remaining_exposure
  if max_position_value ≤ 0 then 0
  else max 0 (pyInt (max_position_value / entry_price))

/-- `RiskManager._kelly_criterion_size`. -/
def kelly_criterion_size (cfg : RiskManagementConfig)
    (entry_price stop_loss_price account_value current_positions_value
     win_rate : ℚ) : ℤ :=
  let avg_win_loss_rr : ℚ := 2.0
  let kelly_pct := win_rate - (1 - win_rate) / avg_win_loss_rr
  let kelly_pct := max 0 (kelly_pct * 0.5)
  let kelly_pct := min kelly_pct cfg.max_position_size_pct
  let max_position_value := account_value * kelly_pct
  let remaining_exposure :=
    account_value * cfg.max_total_exposure_pct - current_positions_value
  let max_position_value := min max_position_value remaining_exposure
  if max_position_value ≤ 0 then 0
  else max 0 (pyInt (max_position_value / entry_price))

/-- `RiskManager._volatility_adjusted_size`: the source degenerates to fixed
fractional sizing. -/
def volatility_adjusted_size (cfg : RiskManagementConfig)
    (entry_price stop_loss_price account_value current_positions_value : ℚ) : ℤ :=
  fixed_fractional_size cfg entry_price stop_loss_price account_value
    current_positions_value

/-- `RiskManager.calculate_position_size`: dispatch on the configured sizing
method; the Kelly branch is taken only when `win_rate` is truthy. -/
def calculate_position_size (cfg : RiskManagementConfig) (_symbol : String)
    (entry_price stop_loss_price account_value current_positions_value : ℚ)
    (win_rate : Option ℚ) : ℤ :=
  let method := cfg.position_sizing_method
  if method = "fixed_fractional" then
    fixed_fractional_size cfg entry_price stop_loss_price account_value
      current_positions_value
  else if method = "kelly_criterion" ∧ qTruthy win_rate then
    kelly_criterion_size cfg entry_price stop_loss_price account_value
      current_positions_value (win_rate.getD 0)
  else if method = "volatility_adjusted" then
    volatility_adjusted_size cfg entry_price stop_loss_price account_value
      current_positions_value
  else
    fixed_fractional_size cfg entry_price stop_loss_price account_value
      current_positions_value

/-- `RiskManager.calculate_stop_loss`. The dynamic branch is taken only when
the configured type is "dynamic" and `atr` is truthy (`None` and `0.0` both
fail the Python `and atr` test). -/
def calculate_stop_loss (cfg : RiskManagementConfig) (_symbol : String)
    (entry_price : ℚ) (is_long : Bool) (atr : Option ℚ) : ℚ :=
  if cfg.stop_loss_type = "static" then
    let stop_pct := cfg.static_stop_loss_pct
    if is_long then entry_price * (1 - stop_pct) else entry_price * (1 + stop_pct)
  else if cfg.stop_loss_type = "dynamic" ∧ qTruthy atr then
    let multiplier := cfg.dynamic_stop_loss_atr_multiplier
    let stop_distance := atr.getD 0 * multiplier
    if is_long then entry_price - stop_distance else entry_price + stop_distance
  else
    let stop_pct := cfg.static_stop_loss_pct
    if is_long then entry_price * (1 - stop_pct) else entry_price * (1 + stop_pct)

/-- `RiskManager.update_trailing_stop`: returns the pair (Python return value,
state after the call). -/
def update_trailing_stop (cfg : RiskManagementConfig) (st : RiskManagerState)
    (symbol : String) (current_price entry_price : ℚ) (is_long : Bool) :
    Option ℚ × RiskManagerState :=
  if !cfg.trailing_stop_enabled then
    (none, st)
  else
    let activation_pct := cfg.trailing_stop_activation_pct
    if is_long then
      let profit_pct := (current_price - entry_price) / entry_price
      if activation_pct ≤ profit_pct then
        let trail_distance := current_price * cfg.trailing_stop_distance_pct
        let new_stop := current_price - trail_distance
        let new_stop :=
          match st.trailing_stops symbol with
          | some existing_stop => max new_stop existing_stop
          | none => new_stop
        (some new_stop,
         { st with trailing_stops := dictInsert st.trailing_stops symbol new_stop })
      else
        (none, st)
    else
      let profit_pct := (entry_price - current_price) / entry_price
      if activation_pct ≤ profit_pct then
        let trail_distance := current_price * cfg.trailing_stop_distance_pct
        let new_stop := current_price + trail_distance
        let new_stop :=
          match st.trailing_stops symbol with
          | some existing_stop => min new_stop existing_stop
          | none => new_stop
        (some new_stop,
         { st with trailing_stops := dictInsert st.trailing_stops symbol new_stop })
      else
        (none, st)

/-- `RiskManager.apply_martingale`: returns (adjusted size, state after). -/
def apply_martingale (cfg : RiskManagementConfig) (st : RiskManagerState)
    (symbol : String) (base_size : ℤ) (lost_previous_trade : Bool) :
    ℤ × RiskManagerState :=
  if !cfg.enable_martingale then
    (base_size, st)
  else
    let new_count :=
      if lost_previous_trade then (st.consecutive_losses symbol).getD 0 + 1 else 0
    let st :=
      { st with consecutive_losses := dictInsert st.consecutive_losses symbol new_count }
    let losses :=
      min ((st.consecutive_losses symbol).getD 0) cfg.martingale_max_doublings
    let multiplier : ℤ := 2 ^ losses
    (base_size * multiplier, st)

/-! ## Trading engine (src/core/trading_engine.py) -/

/-- `config.TradingMode`, restricted to the two modes `_close_position`
distinguishes (every mode other than "paper" takes the live branch). -/
inductive TradingMode where
  | paper
  | live
deriving DecidableEq

/-- The fields of an `active_positions[symbol]` record that the monitor loop
and `_close_position` read. -/
structure PosInfo where
  quantity : ℤ
  entry_price : ℚ
  stop_loss : Option ℚ
  take_profit : Option ℚ
  stop_order_id : Option ℕ

/-- The engine state mutated by `_close_position`: the position ledger, the
risk manager's counters, and the running total PnL. -/
structure EngineState where
  active_positions : String → Option PosInfo
  risk : RiskManagerState
  total_pnl : ℚ

/-- Outcome of one `_close_position` call: the state after the call, the id
of the exit order whose submission was confirmed (live path), and the PnL
passed to `record_trade` (paper path), when any. -/
structure CloseResult where
  state : EngineState
  submitted_order : Option ℕ
  recorded : Option ℚ

/-- `TradingEngine._close_position`. Broker calls are oracles: `quote` is the
exit price returned by `get_quote` (`none` = the call raised), and
`place_order_result` is the order id returned by `place_order` (`none` = the
call raised). Any exception is caught by the surrounding `try/except`, which
leaves the state as it was at the point of the raise. -/
def close_position (mode : TradingMode) (st : EngineState) (symbol : String)
    (quote : Option ℚ) (place_order_result : Option ℕ) : CloseResult :=
  match st.active_positions symbol with
  | none => ⟨st, none, none⟩
  | some pos_info =>
    match quote with
    | none => ⟨st, none, none⟩
    | some exit_price =>
      let quantity : ℤ := |pos_info.quantity|
      let is_long := 0 < pos_info.quantity
      match mode with
      | .paper =>
        let entry_price := pos_info.entry_price
        let pnl :=
          if is_long then (quantity : ℚ) * (exit_price - entry_price)
          else (quantity : ℚ) * (entry_price - exit_price)
        let st := { st with risk := record_trade st.risk pnl,
                            total_pnl := st.total_pnl + pnl }
        ⟨{ st with active_positions := dictErase st.active_positions symbol },
         none, some pnl⟩
      | .live =>
        match place_order_result with
        | none => ⟨st, none, none⟩
        | some order_id =>
          ⟨{ st with active_positions := dictErase st.active_positions symbol },
           some order_id, none⟩

/-- The body of `TradingEngine._position_monitor_loop` for one broker-side
position: breach checks, up to two `_close_position` calls (the take-profit
check still runs after a stop-loss close), then the trailing-stop update.
`broker_quantity` is `longQuantity - shortQuantity` from the broker;
`current_price` is the quote's `lastPrice` (the `.get` chain defaults it to
0, so it is total); `quote1/place1` and `quote2/place2` are the broker
oracles for the first and second `_close_position` call. Returns the state
after the iteration, the PnLs passed to `record_trade`, and the confirmed
exit-order ids, in call order. -/
def position_monitor_step (cfg : RiskManagementConfig) (mode : TradingMode)
    (st : EngineState) (symbol : String) (broker_quantity : ℤ)
    (current_price : ℚ) (quote1 : Option ℚ) (place1 : Option ℕ)
    (quote2 : Option ℚ) (place2 : Option ℕ) :
    EngineState × List ℚ × List ℕ :=
  if broker_quantity = 0 then (st, [], [])
  else
    match st.active_positions symbol with
    | none => (st, [], [])
    | some pos_info =>
      let is_long := 0 < broker_quantity
      let stop_breach :=
        pos_info.stop_order_id = none ∧ qTruthy pos_info.stop_loss ∧
          (let stop_loss := pos_info.stop_loss.getD 0
           if is_long then current_price ≤ stop_loss else stop_loss ≤ current_price)
      let r1 :=
        if stop_breach then close_position mode st symbol quote1 place1
        else ⟨st, none, none⟩
      let tp_breach :=
        qTruthy pos_info.take_profit ∧
          (let take_profit := pos_info.take_profit.getD 0
           if is_long then take_profit ≤ current_price else current_price ≤ take_profit)
      let r2 :=
        if tp_breach then close_position mode r1.state symbol quote2 place2
        else ⟨r1.state, none, none⟩
      let final :=
        if cfg.trailing_stop_enabled then
          { r2.state with risk :=
              (update_trailing_stop cfg r2.state.risk symbol current_price
                pos_info.entry_price is_long).2 }
        else r2.state
      (final, r1.recorded.toList ++ r2.recorded.toList,
       r1.submitted_order.toList ++ r2.submitted_order.toList)

/-- The position-sizing call made by `TradingEngine._execute_signal`
(trading_engine.py lines 369-375): it passes the signal's entry and stop and
omits the `win_rate` keyword, so `win_rate` is `None`. -/
def execute_signal_position_size (cfg : RiskManagementConfig) (symbol : String)
    (signal_entry_price signal_stop_loss account_value current_exposure : ℚ) : ℤ :=
  calculate_position_size cfg symbol signal_entry_price signal_stop_loss
    account_value current_exposure none

/-! ## Theorems -/

/-- C1, counterexample: with the daily trade count (0) strictly below
`max_daily_trades` (20), account_value = 10000 and max_daily_loss_pct = 0.05,
a recorded daily PnL of exactly −500 satisfies "daily PnL ≤ −500", yet
`can_trade` returns `(true, "OK")` — the source compares with strict `<`,
so the claimed "returns (false, reason) iff daily PnL ≤ −500" fails. -/
theorem C1_counterexample :
    (can_trade defaultRiskConfig 0 10000
        ⟨-500, 0, 0, fun _ => none, fun _ => none⟩).1 = (true, "OK") ∧
    (-500 : ℚ) ≤ -(10000 * defaultRiskConfig.max_daily_loss_pct) ∧
    (0 : ℕ) < defaultRiskConfig.max_daily_trades := by
  refine ⟨by norm_num [can_trade, reset_daily_stats, defaultRiskConfig],
    by norm_num [defaultRiskConfig], by norm_num [defaultRiskConfig]⟩

/-- C1 (amended): with the daily trade count strictly below
`max_daily_trades`, for account_value = 10000 and max_daily_loss_pct = 0.05
(the defaults), and the calendar date unchanged since the last reset,
`can_trade` returns `(false, reason)` iff the recorded daily PnL is
strictly below −500, and returns `(true, "OK")` otherwise. -/
theorem C1_can_trade_strict_loss_limit (pnl : ℚ) (trades : ℕ) (d : ℤ)
    (ts : String → Option ℚ) (cl : String → Option ℕ)
    (htr : trades < defaultRiskConfig.max_daily_trades) :
    ((can_trade defaultRiskConfig d 10000 ⟨pnl, trades, d, ts, cl⟩).1.1 = false
        ↔ pnl < -500) ∧
    (-500 ≤ pnl →
      (can_trade defaultRiskConfig d 10000 ⟨pnl, trades, d, ts, cl⟩).1
        = (true, "OK")) := by
  have hlim : -((10000 : ℚ) * defaultRiskConfig.max_daily_loss_pct) = -500 := by
    norm_num [defaultRiskConfig]
  have hcap : ¬ defaultRiskConfig.max_daily_trades ≤ trades := not_le.mpr htr
  unfold can_trade reset_daily_stats
  simp only [lt_irrefl, if_false, hlim, hcap]
  constructor
  · by_cases hp : pnl < -500 <;> simp [hp]
  · intro hge
    have hp : ¬ pnl < -500 := not_lt.mpr hge
    simp [hp]

/-- C1 witness: at daily PnL −501 the (amended) theorem yields a rejection,
and at daily PnL 0 it yields `(true, "OK")`. -/
theorem C1_witness :
    (can_trade defaultRiskConfig 0 10000
        ⟨-501, 0, 0, fun _ => none, fun _ => none⟩).1.1 = false ∧
    (can_trade defaultRiskConfig 0 10000
        ⟨0, 0, 0, fun _ => none, fun _ => none⟩).1 = (true, "OK") := by
  constructor
  · exact (C1_can_trade_strict_loss_limit (-501) 0 0 (fun _ => none)
      (fun _ => none) (by norm_num [defaultRiskConfig])).1.mpr (by norm_num)
  · exact (C1_can_trade_strict_loss_limit 0 0 0 (fun _ => none)
      (fun _ => none) (by norm_num [defaultRiskConfig])).2 (by norm_num)

/-- C2: ratchet invariant of `update_trailing_stop`: a call for a long
position never decreases the stored trailing stop — when a store happens it
stores the max of the candidate and the prior value — and a call for a short
position never increases it (min); in particular, with a stored stop of 98
for a long position, a candidate of 97 leaves the stored stop at 98 and a
candidate of 99 advances it to 99 (config: activation 0, trail distance 0,
so the candidate equals the current price). -/
theorem C2_trailing_stop_ratchet :
    (∀ (cfg : RiskManagementConfig) (st : RiskManagerState) (symbol : String)
       (current_price entry_price old : ℚ),
       st.trailing_stops symbol = some old →
       ∃ nw, (update_trailing_stop cfg st symbol current_price entry_price
                true).2.trailing_stops symbol = some nw ∧ old ≤ nw) ∧
    (∀ (cfg : RiskManagementConfig) (st : RiskManagerState) (symbol : String)
       (current_price entry_price old : ℚ),
       st.trailing_stops symbol = some old →
       ∃ nw, (update_trailing_stop cfg st symbol current_price entry_price
                false).2.trailing_stops symbol = some nw ∧ nw ≤ old) ∧
    (let cfgT := { defaultRiskConfig with
                    trailing_stop_activation_pct := 0,
                    trailing_stop_distance_pct := 0 }
     let stT : RiskManagerState :=
       ⟨0, 0, 0, fun q => if q = "A" then some 98 else none, fun _ => none⟩
     (update_trailing_stop cfgT stT "A" 97 90 true).2.trailing_stops "A"
        = some 98 ∧
     (update_trailing_stop cfgT stT "A" 99 90 true).2.trailing_stops "A"
        = some 99) := by
  refine ⟨?_, ?_, ?_, ?_⟩
  · intro cfg st symbol current_price entry_price old h
    unfold update_trailing_stop
    cases hE : cfg.trailing_stop_enabled with
    | false => exact ⟨old, by simp [h], le_refl old⟩
    | true =>
      by_cases hA : cfg.trailing_stop_activation_pct ≤
          (current_price - entry_price) / entry_price
      · refine ⟨max (current_price -
            current_price * cfg.trailing_stop_distance_pct) old, ?_, le_max_right _ _⟩
        simp [hA, h, dictInsert]
      · exact ⟨old, by simp [hA, h], le_refl old⟩
  · intro cfg st symbol current_price entry_price old h
    unfold update_trailing_stop
    cases hE : cfg.trailing_stop_enabled with
    | false => exact ⟨old, by simp [h], le_refl old⟩
    | true =>
      by_cases hA : cfg.trailing_stop_activation_pct ≤
          (entry_price - current_price) / entry_price
      · refine ⟨min (current_price +
            current_price * cfg.trailing_stop_distance_pct) old, ?_, min_le_right _ _⟩
        simp [hA, h, dictInsert]
      · exact ⟨old, by simp [hA, h], le_refl old⟩
  · norm_num [update_trailing_stop, dictInsert, defaultRiskConfig]
  · norm_num [update_trailing_stop, dictInsert, defaultRiskConfig]

/-- C2 witness: with a stored stop of 98 for symbol "A", a long update leaves
some stored value ≥ 98 (instantiating the ratchet theorem at a concrete
state). -/
theorem C2_witness :
    ∃ nw, (update_trailing_stop defaultRiskConfig
        ⟨0, 0, 0, fun _ => some 98, fun _ => none⟩ "A" 97 90
        true).2.trailing_stops "A" = some nw ∧ (98 : ℚ) ≤ nw :=
  C2_trailing_stop_ratchet.1 defaultRiskConfig
    ⟨0, 0, 0, fun _ => some 98, fun _ => none⟩ "A" 97 90 98 rfl

/-- C4, counterexample: with trailing stops enabled, activation 0 and trail
distance 0, a stored stop of 98 and a candidate of 97 leave the stored value
unchanged at 98, yet the call returns `some 98`, not `none` — the source
returns the (possibly unchanged) stored stop whenever the activation test
passes, so "returns a price only when the stored value changes" fails. -/
theorem C4_counterexample :
    (update_trailing_stop
        { defaultRiskConfig with trailing_stop_activation_pct := 0,
                                 trailing_stop_distance_pct := 0 }
        ⟨0, 0, 0, fun q => if q = "A" then some 98 else none, fun _ => none⟩
        "A" 97 90 true).1 = some 98 ∧
    (update_trailing_stop
        { defaultRiskConfig with trailing_stop_activation_pct := 0,
                                 trailing_stop_distance_pct := 0 }
        ⟨0, 0, 0, fun q => if q = "A" then some 98 else none, fun _ => none⟩
        "A" 97 90 true).2.trailing_stops "A" = some 98 := by
  constructor
  · norm_num [update_trailing_stop, defaultRiskConfig]
  · norm_num [update_trailing_stop, dictInsert, defaultRiskConfig]

/-- C4 (amended): `update_trailing_stop` returns `none` iff trailing stops
are disabled or the activation threshold is not met; whenever it returns a
price, that price is exactly the stored trailing-stop value after the call —
which may equal the prior stored value, so a non-`none` return does not
imply the stored value changed. (`entry_price > 0` mirrors the Python
division by `entry_price`, which requires it nonzero.) -/
theorem C4_trailing_stop_return_value (cfg : RiskManagementConfig)
    (st : RiskManagerState) (symbol : String) (current_price entry_price : ℚ)
    (is_long : Bool) (hep : 0 < entry_price) :
    ((update_trailing_stop cfg st symbol current_price entry_price is_long).1
        = none ↔
       ¬(cfg.trailing_stop_enabled = true ∧
         (if is_long then
            cfg.trailing_stop_activation_pct ≤
              (current_price - entry_price) / entry_price
          else
            cfg.trailing_stop_activation_pct ≤
              (entry_price - current_price) / entry_price))) ∧
    (∀ v,
      (update_trailing_stop cfg st symbol current_price entry_price is_long).1
          = some v →
      (update_trailing_stop cfg st symbol current_price entry_price
          is_long).2.trailing_stops symbol = some v) := by
  constructor
  · unfold update_trailing_stop
    cases hE : cfg.trailing_stop_enabled with
    | false => simp
    | true =>
      cases is_long with
      | true =>
        by_cases hA : cfg.trailing_stop_activation_pct ≤
            (current_price - entry_price) / entry_price
        · cases hts : st.trailing_stops symbol <;> simp [hA, hts]
        · simp [hA]
      | false =>
        by_cases hA : cfg.trailing_stop_activation_pct ≤
            (entry_price - current_price) / entry_price
        · cases hts : st.trailing_stops symbol <;> simp [hA, hts]
        · simp [hA]
  · intro v hv
    unfold update_trailing_stop at hv ⊢
    cases hE : cfg.trailing_stop_enabled with
    | false => simp [hE] at hv
    | true =>
      cases is_long with
      | true =>
        by_cases hA : cfg.trailing_stop_activation_pct ≤
            (current_price - entry_price) / entry_price
        · cases hts : st.trailing_stops symbol <;>
            simp [hA, hts, hE, dictInsert] at hv ⊢ <;> exact hv
        · simp [hA, hE] at hv
      | false =>
        by_cases hA : cfg.trailing_stop_activation_pct ≤
            (entry_price - current_price) / entry_price
        · cases hts : st.trailing_stops symbol <;>
            simp [hA, hts, hE, dictInsert] at hv ⊢ <;> exact hv
        · simp [hA, hE] at hv

/-- C4 witness: at a concrete activated long update the theorem yields that
the returned price equals the stored value after the call. -/
theorem C4_witness :
    (update_trailing_stop defaultRiskConfig
        ⟨0, 0, 0, fun _ => none, fun _ => none⟩ "A" 100 90
        true).2.trailing_stops "A" = some 99 :=
  (C4_trailing_stop_return_value defaultRiskConfig
    ⟨0, 0, 0, fun _ => none, fun _ => none⟩ "A" 100 90 true
    (by norm_num)).2 99
    (by norm_num [update_trailing_stop, defaultRiskConfig])

/-- C5: fixed-fractional sizing for entry price > 0: the result is
independent of the stop-loss argument (which the source computes into an
unused local), equals floor of the exposure-capped capital divided by the
entry price with a clamp to 0 when that capital is ≤ 0, and the concrete
instance entry 50, account 10000, max position 10%, zero exposure gives 20
shares. -/
theorem C5_fixed_fractional_size (cfg : RiskManagementConfig)
    (entry stop1 stop2 av cur : ℚ) (he : 0 < entry) :
    fixed_fractional_size cfg entry stop1 av cur
      = fixed_fractional_size cfg entry stop2 av cur ∧
    fixed_fractional_size cfg entry stop1 av cur
      = (if min (av * cfg.max_position_size_pct)
               (av * cfg.max_total_exposure_pct - cur) ≤ 0 then 0
         else ⌊min (av * cfg.max_position_size_pct)
                   (av * cfg.max_total_exposure_pct - cur) / entry⌋) ∧
    fixed_fractional_size defaultRiskConfig 50 49 10000 0 = 20 := by
  refine ⟨rfl, ?_, ?_⟩
  · unfold fixed_fractional_size
    by_cases h0 : min (av * cfg.max_position_size_pct)
        (av * cfg.max_total_exposure_pct - cur) ≤ 0
    · simp [h0]
    · push_neg at h0
      have hq : 0 < min (av * cfg.max_position_size_pct)
          (av * cfg.max_total_exposure_pct - cur) / entry := div_pos h0 he
      rw [if_neg (not_le.mpr h0), if_neg (not_le.mpr h0)]
      unfold pyInt
      rw [if_neg (not_lt.mpr hq.le)]
      exact max_eq_right (Int.floor_nonneg.mpr hq.le)
  · norm_num [fixed_fractional_size, pyInt, defaultRiskConfig]

/-- C5 witness: the concrete instance of the theorem at entry 50, stops 49
and 48, account 10000, zero exposure. -/
theorem C5_witness :
    fixed_fractional_size defaultRiskConfig 50 49 10000 0
      = fixed_fractional_size defaultRiskConfig 50 48 10000 0 ∧
    fixed_fractional_size defaultRiskConfig 50 49 10000 0 = 20 :=
  ⟨(C5_fixed_fractional_size defaultRiskConfig 50 49 48 10000 0 (by norm_num)).1,
   (C5_fixed_fractional_size defaultRiskConfig 50 49 48 10000 0 (by norm_num)).2.2⟩

/-- C6: Kelly sizing uses the fraction
min(max(0, (win_rate − (1 − win_rate)/2.0) × 0.5), max_position_size_pct),
then the same exposure-capped capital division by the entry price as
fixed-fractional sizing; for win_rate 0.6 the fraction is capped at 0.10 and
the end-to-end concrete instance (entry 50, account 10000) gives 20. -/
theorem C6_kelly_criterion_size (cfg : RiskManagementConfig)
    (entry stop av cur w : ℚ) (he : 0 < entry) :
    kelly_criterion_size cfg entry stop av cur w
      = (if min (av * min (max 0 ((w - (1 - w) / 2.0) * 0.5))
                    cfg.max_position_size_pct)
               (av * cfg.max_total_exposure_pct - cur) ≤ 0 then 0
         else ⌊min (av * min (max 0 ((w - (1 - w) / 2.0) * 0.5))
                       cfg.max_position_size_pct)
                   (av * cfg.max_total_exposure_pct - cur) / entry⌋) ∧
    min (max 0 (((0.6 : ℚ) - (1 - 0.6) / 2.0) * 0.5))
        defaultRiskConfig.max_position_size_pct = 0.10 ∧
    kelly_criterion_size defaultRiskConfig 50 49 10000 0 0.6 = 20 := by
  refine ⟨?_, ?_, ?_⟩
  · unfold kelly_criterion_size
    by_cases h0 : min (av * min (max 0 ((w - (1 - w) / 2.0) * 0.5))
          cfg.max_position_size_pct)
        (av * cfg.max_total_exposure_pct - cur) ≤ 0
    · simp [h0]
    · push_neg at h0
      have hq : 0 < min (av * min (max 0 ((w - (1 - w) / 2.0) * 0.5))
            cfg.max_position_size_pct)
          (av * cfg.max_total_exposure_pct - cur) / entry := div_pos h0 he
      rw [if_neg (not_le.mpr h0), if_neg (not_le.mpr h0)]
      unfold pyInt
      rw [if_neg (not_lt.mpr hq.le)]
      exact max_eq_right (Int.floor_nonneg.mpr hq.le)
  · norm_num [defaultRiskConfig]
  · norm_num [kelly_criterion_size, pyInt, defaultRiskConfig]

/-- C6 witness: the concrete instance of the theorem at win_rate 0.6. -/
theorem C6_witness :
    min (max 0 (((0.6 : ℚ) - (1 - 0.6) / 2.0) * 0.5))
        defaultRiskConfig.max_position_size_pct = 0.10 ∧
    kelly_criterion_size defaultRiskConfig 50 49 10000 0 0.6 = 20 :=
  ⟨(C6_kelly_criterion_size defaultRiskConfig 50 49 10000 0 0.6 (by norm_num)).2.1,
   (C6_kelly_criterion_size defaultRiskConfig 50 49 10000 0 0.6 (by norm_num)).2.2⟩

/-- C7: `apply_martingale` returns the base size unchanged when martingale
is disabled; when enabled, a loss increments the per-symbol counter and a
win resets it to 0, and the returned size is
base × 2^min(counter, max_doublings); the concrete run with max_doublings 2
and base 10 yields 10, 20, 40, 40 across 0, 1, 2, 3 consecutive losses. -/
theorem C7_apply_martingale :
    (∀ (cfg : RiskManagementConfig) (st : RiskManagerState) (symbol : String)
       (b : ℤ) (l : Bool), cfg.enable_martingale = false →
       apply_martingale cfg st symbol b l = (b, st)) ∧
    (∀ (cfg : RiskManagementConfig) (st : RiskManagerState) (symbol : String)
       (b : ℤ) (l : Bool), cfg.enable_martingale = true →
       (apply_martingale cfg st symbol b l).2.consecutive_losses symbol
         = some (if l then (st.consecutive_losses symbol).getD 0 + 1 else 0) ∧
       (apply_martingale cfg st symbol b l).1
         = b * 2 ^ min (if l then (st.consecutive_losses symbol).getD 0 + 1
                        else 0) cfg.martingale_max_doublings) ∧
    (let cfgM := { defaultRiskConfig with enable_martingale := true }
     let st0 : RiskManagerState := ⟨0, 0, 0, fun _ => none, fun _ => none⟩
     let r1 := apply_martingale cfgM st0 "A" 10 false
     let r2 := apply_martingale cfgM r1.2 "A" 10 true
     let r3 := apply_martingale cfgM r2.2 "A" 10 true
     let r4 := apply_martingale cfgM r3.2 "A" 10 true
     r1.1 = 10 ∧ r2.1 = 20 ∧ r3.1 = 40 ∧ r4.1 = 40) := by
  refine ⟨?_, ?_, ?_⟩
  · intro cfg st symbol b l h
    simp [apply_martingale, h]
  · intro cfg st symbol b l h
    cases l <;> simp [apply_martingale, h, dictInsert]
  · norm_num [apply_martingale, dictInsert, defaultRiskConfig]

/-- C7 witness: with the default configuration (martingale disabled) the
size is returned unchanged, instantiating the theorem concretely. -/
theorem C7_witness :
    apply_martingale defaultRiskConfig
        ⟨0, 0, 0, fun _ => none, fun _ => none⟩ "A" 7 true
      = (7, ⟨0, 0, 0, fun _ => none, fun _ => none⟩) :=
  C7_apply_martingale.1 defaultRiskConfig
    ⟨0, 0, 0, fun _ => none, fun _ => none⟩ "A" 7 true rfl

/-- C8, counterexample: the default configuration is in dynamic mode; the
call with atr supplied as 0 returns the static fallback 98, not
entry − atr × multiplier = 100 — Python's `and atr` treats a supplied 0.0
like a missing atr, so the claim's "dynamic mode with atr supplied returns
entry ∓ atr × dynamic_multiplier" fails at atr = 0. -/
theorem C8_counterexample :
    defaultRiskConfig.stop_loss_type = "dynamic" ∧
    calculate_stop_loss defaultRiskConfig "A" 100 true (some 0) = 98 ∧
    (98 : ℚ) ≠ 100 - 0 * defaultRiskConfig.dynamic_stop_loss_atr_multiplier := by
  refine ⟨rfl, ?_, ?_⟩
  · norm_num [calculate_stop_loss, qTruthy, defaultRiskConfig] <;> decide
  · norm_num [defaultRiskConfig]

/-- C8 (amended): in static mode `calculate_stop_loss` returns
entry × (1 ∓ static_pct); in dynamic mode with atr supplied and nonzero it
returns entry ∓ atr × dynamic_multiplier; in dynamic mode with atr missing
or zero it falls back to the static formula. Concretely,
stop(entry=100, long, static 2%) = 98 and
stop(entry=100, long, atr=2, multiplier=2) = 96. -/
theorem C8_calculate_stop_loss (cfg : RiskManagementConfig) (symbol : String)
    (entry : ℚ) (is_long : Bool) (a : ℚ) :
    (cfg.stop_loss_type = "static" →
      ∀ atr, calculate_stop_loss cfg symbol entry is_long atr
        = (if is_long then entry * (1 - cfg.static_stop_loss_pct)
           else entry * (1 + cfg.static_stop_loss_pct))) ∧
    (cfg.stop_loss_type = "dynamic" → a ≠ 0 →
      calculate_stop_loss cfg symbol entry is_long (some a)
        = (if is_long then entry - a * cfg.dynamic_stop_loss_atr_multiplier
           else entry + a * cfg.dynamic_stop_loss_atr_multiplier)) ∧
    (cfg.stop_loss_type = "dynamic" →
      calculate_stop_loss cfg symbol entry is_long none
        = (if is_long then entry * (1 - cfg.static_stop_loss_pct)
           else entry * (1 + cfg.static_stop_loss_pct)) ∧
      calculate_stop_loss cfg symbol entry is_long (some 0)
        = (if is_long then entry * (1 - cfg.static_stop_loss_pct)
           else entry * (1 + cfg.static_stop_loss_pct))) ∧
    calculate_stop_loss { defaultRiskConfig with stop_loss_type := "static" }
        symbol 100 true none = 98 ∧
    calculate_stop_loss defaultRiskConfig symbol 100 true (some 2) = 96 := by
  refine ⟨?_, ?_, ?_, ?_, ?_⟩
  · intro h atr
    simp [calculate_stop_loss, h]
  · intro h ha
    unfold calculate_stop_loss
    rw [h]
    rw [if_neg (by decide), if_pos ⟨rfl, by simp [qTruthy, ha]⟩]
    simp [mul_comm]
  · intro h
    constructor
    · unfold calculate_stop_loss
      rw [h]
      rw [if_neg (by decide), if_neg (by simp [qTruthy])]
    · unfold calculate_stop_loss
      rw [h]
      rw [if_neg (by decide), if_neg (by simp [qTruthy])]
  · norm_num [calculate_stop_loss, qTruthy, defaultRiskConfig] <;> decide
  · norm_num [calculate_stop_loss, qTruthy, defaultRiskConfig] <;> decide

/-- C8 witness: both concrete instances, via the theorem. -/
theorem C8_witness :
    calculate_stop_loss { defaultRiskConfig with stop_loss_type := "static" }
        "A" 100 true none = 98 ∧
    calculate_stop_loss defaultRiskConfig "A" 100 true (some 2) = 96 :=
  ⟨(C8_calculate_stop_loss defaultRiskConfig "A" 100 true 2).2.2.2.1,
   (C8_calculate_stop_loss defaultRiskConfig "A" 100 true 2).2.2.2.2⟩

/-- C9: `reset_daily_stats` zeroes the daily PnL and trade count iff the
current date is strictly later than the stored reset-boundary date, advances
the boundary to the current day when it does, leaves the state untouched
otherwise (so never retroactively), and is idempotent within a day — no
second reset can occur on the same day. -/
theorem C9_reset_daily_stats (st : RiskManagerState) (today : ℤ) :
    (st.daily_reset_date < today →
      reset_daily_stats today st
        = { st with daily_pnl := 0, daily_trades := 0,
                    daily_reset_date := today }) ∧
    (¬ st.daily_reset_date < today → reset_daily_stats today st = st) ∧
    reset_daily_stats today (reset_daily_stats today st)
      = reset_daily_stats today st := by
  refine ⟨?_, ?_, ?_⟩
  · intro h
    simp [reset_daily_stats, h]
  · intro h
    simp [reset_daily_stats, h]
  · by_cases h : st.daily_reset_date < today <;>
      simp [reset_daily_stats, h]

/-- C9 witness: a boundary of day 0 and a current date of day 1 trigger the
reset, instantiating the theorem concretely. -/
theorem C9_witness :
    reset_daily_stats 1 ⟨-250, 3, 0, fun _ => none, fun _ => none⟩
      = ⟨0, 0, 1, fun _ => none, fun _ => none⟩ :=
  (C9_reset_daily_stats ⟨-250, 3, 0, fun _ => none, fun _ => none⟩ 1).1
    (by norm_num)

/-- C10: with the sizing method configured as "kelly_criterion" but no
win_rate supplied (`None` or 0, both falsy in the source's `and win_rate`
test), `calculate_position_size` silently falls back to the fixed-fractional
size; and the engine's `_execute_signal` sizing call omits `win_rate`, so a
kelly-configured system always sizes fixed-fractionally on that path. -/
theorem C10_kelly_without_win_rate (cfg : RiskManagementConfig)
    (symbol : String) (entry stop av cur : ℚ)
    (h : cfg.position_sizing_method = "kelly_criterion") :
    calculate_position_size cfg symbol entry stop av cur none
      = fixed_fractional_size cfg entry stop av cur ∧
    calculate_position_size cfg symbol entry stop av cur (some 0)
      = fixed_fractional_size cfg entry stop av cur ∧
    execute_signal_position_size cfg symbol entry stop av cur
      = fixed_fractional_size cfg entry stop av cur := by
  have h1 : calculate_position_size cfg symbol entry stop av cur none
      = fixed_fractional_size cfg entry stop av cur := by
    unfold calculate_position_size
    rw [h]
    rw [if_neg (by decide), if_neg (by simp [qTruthy]), if_neg (by decide)]
  have h2 : calculate_position_size cfg symbol entry stop av cur (some 0)
      = fixed_fractional_size cfg entry stop av cur := by
    unfold calculate_position_size
    rw [h]
    rw [if_neg (by decide), if_neg (by simp [qTruthy]), if_neg (by decide)]
  exact ⟨h1, h2, h1⟩

/-- C10 witness: with the default configuration (method "kelly_criterion"),
the no-win-rate call and the engine's sizing call both yield the
fixed-fractional size, instantiated at entry 50, account 10000. -/
theorem C10_witness :
    calculate_position_size defaultRiskConfig "A" 50 49 10000 0 none
      = fixed_fractional_size defaultRiskConfig 50 49 10000 0 ∧
    execute_signal_position_size defaultRiskConfig "A" 50 49 10000 0
      = fixed_fractional_size defaultRiskConfig 50 49 10000 0 :=
  ⟨(C10_kelly_without_win_rate defaultRiskConfig "A" 50 49 10000 0 rfl).1,
   (C10_kelly_without_win_rate defaultRiskConfig "A" 50 49 10000 0 rfl).2.2⟩

/-- C3, counterexample: live mode, exit-order submission confirmed, on both
breach kinds — a stop-loss breach (long at entry 50, stop 49, price 48,
order id 7) and a take-profit breach (long at entry 50, target 52, price 53,
order id 9): in each case the position is removed from the ledger, but
`record_trade` is never invoked (daily trade count and PnL stay 0, no
recorded PnL) — the live path of `_close_position` never calls
`record_trade`, so the claim's "only upon confirmed submission does it
remove the position … and call record_trade with the realized PnL" fails. -/
theorem C3_counterexample :
    (let pos : PosInfo := ⟨20, 50, some 49, none, none⟩
     let est : EngineState :=
       ⟨fun q => if q = "A" then some pos else none,
        ⟨0, 0, 0, fun _ => none, fun _ => none⟩, 0⟩
     let r := position_monitor_step defaultRiskConfig .live est "A" 20 48
                (some 48) (some 7) none none
     r.2.2 = [7] ∧ r.1.active_positions "A" = none ∧ r.2.1 = [] ∧
     r.1.risk.daily_trades = 0 ∧ r.1.risk.daily_pnl = 0) ∧
    (let posT : PosInfo := ⟨20, 50, none, some 52, none⟩
     let estT : EngineState :=
       ⟨fun q => if q = "A" then some posT else none,
        ⟨0, 0, 0, fun _ => none, fun _ => none⟩, 0⟩
     let rT := position_monitor_step defaultRiskConfig .live estT "A" 20 53
                none none (some 53) (some 9)
     rT.2.2 = [9] ∧ rT.1.active_positions "A" = none ∧ rT.2.1 = [] ∧
     rT.1.risk.daily_trades = 0 ∧ rT.1.risk.daily_pnl = 0) := by
  constructor
  · norm_num [position_monitor_step, close_position, record_trade, qTruthy,
      update_trailing_stop, dictErase, dictInsert, defaultRiskConfig]
  · norm_num [position_monitor_step, close_position, record_trade, qTruthy,
      update_trailing_stop, dictErase, dictInsert, defaultRiskConfig]

/-- C3 (amended): when the monitor loop sees a breach on an open position —
either a stop-loss breach (no stop order working, nonzero stored stop, price
at or through the stop, no stored take-profit) or a take-profit breach
(nonzero stored target, price at or through it, no stored stop) — then: in
live mode an exit order is submitted, and only upon confirmed submission is
the position removed from the ledger, but `record_trade` is not called on
the live path; if the exit-order submission (or its quote fetch) raises,
the position remains in the ledger for the next cycle; `record_trade` with
the realized PnL is called only on the paper path, which submits no order
and removes the position. The take-profit close is the second
`_close_position` call of the loop body, so it consumes the second pair of
broker oracles. -/
theorem C3_close_discipline (cfg : RiskManagementConfig) (st : EngineState)
    (symbol : String) (pos : PosInfo) (bq : ℤ) (cp : ℚ)
    (hpos : st.active_positions symbol = some pos)
    (hbq : ¬ bq = 0) :
    (∀ sl, pos.stop_order_id = none → pos.stop_loss = some sl → sl ≠ 0 →
      pos.take_profit = none →
      (if 0 < bq then cp ≤ sl else sl ≤ cp) →
      (∀ ep oid,
        (position_monitor_step cfg .live st symbol bq cp (some ep) (some oid)
            none none).1.active_positions symbol = none ∧
        (position_monitor_step cfg .live st symbol bq cp (some ep) (some oid)
            none none).2.1 = [] ∧
        (position_monitor_step cfg .live st symbol bq cp (some ep) (some oid)
            none none).2.2 = [oid]) ∧
      (∀ q1,
        (position_monitor_step cfg .live st symbol bq cp q1 none
            none none).1.active_positions symbol = some pos ∧
        (position_monitor_step cfg .live st symbol bq cp q1 none
            none none).2.1 = [] ∧
        (position_monitor_step cfg .live st symbol bq cp q1 none
            none none).2.2 = []) ∧
      (∀ ep,
        (position_monitor_step cfg .paper st symbol bq cp (some ep) none
            none none).1.active_positions symbol = none ∧
        (position_monitor_step cfg .paper st symbol bq cp (some ep) none
            none none).2.1
          = [if 0 < pos.quantity then
               (|pos.quantity| : ℚ) * (ep - pos.entry_price)
             else (|pos.quantity| : ℚ) * (pos.entry_price - ep)] ∧
        (position_monitor_step cfg .paper st symbol bq cp (some ep) none
            none none).2.2 = [])) ∧
    (∀ tp, pos.stop_loss = none → pos.take_profit = some tp → tp ≠ 0 →
      (if 0 < bq then tp ≤ cp else cp ≤ tp) →
      (∀ ep oid,
        (position_monitor_step cfg .live st symbol bq cp none none
            (some ep) (some oid)).1.active_positions symbol = none ∧
        (position_monitor_step cfg .live st symbol bq cp none none
            (some ep) (some oid)).2.1 = [] ∧
        (position_monitor_step cfg .live st symbol bq cp none none
            (some ep) (some oid)).2.2 = [oid]) ∧
      (∀ q2,
        (position_monitor_step cfg .live st symbol bq cp none none
            q2 none).1.active_positions symbol = some pos ∧
        (position_monitor_step cfg .live st symbol bq cp none none
            q2 none).2.1 = [] ∧
        (position_monitor_step cfg .live st symbol bq cp none none
            q2 none).2.2 = []) ∧
      (∀ ep,
        (position_monitor_step cfg .paper st symbol bq cp none none
            (some ep) none).1.active_positions symbol = none ∧
        (position_monitor_step cfg .paper st symbol bq cp none none
            (some ep) none).2.1
          = [if 0 < pos.quantity then
               (|pos.quantity| : ℚ) * (ep - pos.entry_price)
             else (|pos.quantity| : ℚ) * (pos.entry_price - ep)] ∧
        (position_monitor_step cfg .paper st symbol bq cp none none
            (some ep) none).2.2 = [])) := by
  refine ⟨?_, ?_⟩
  · intro sl hsoid hsl hsl0 htp hbreach
    refine ⟨?_, ?_, ?_⟩
    · intro ep oid
      cases hT : cfg.trailing_stop_enabled <;>
        simp [position_monitor_step, close_position, hpos, hbq, hsoid, hsl,
          htp, qTruthy, hsl0, hbreach, hT, dictErase]
    · intro q1
      cases q1 <;> cases hT : cfg.trailing_stop_enabled <;>
        simp [position_monitor_step, close_position, hpos, hbq, hsoid, hsl,
          htp, qTruthy, hsl0, hbreach, hT, dictErase]
    · intro ep
      cases hT : cfg.trailing_stop_enabled <;>
        simp [position_monitor_step, close_position, record_trade, hpos, hbq,
          hsoid, hsl, htp, qTruthy, hsl0, hbreach, hT, dictErase]
  · intro tp hsl htp htp0 hbreach
    refine ⟨?_, ?_, ?_⟩
    · intro ep oid
      cases hT : cfg.trailing_stop_enabled <;>
        simp [position_monitor_step, close_position, hpos, hbq, hsl, htp,
          qTruthy, htp0, hbreach, hT, dictErase]
    · intro q2
      cases q2 <;> cases hT : cfg.trailing_stop_enabled <;>
        simp [position_monitor_step, close_position, hpos, hbq, hsl, htp,
          qTruthy, htp0, hbreach, hT, dictErase]
    · intro ep
      cases hT : cfg.trailing_stop_enabled <;>
        simp [position_monitor_step, close_position, record_trade, hpos, hbq,
          hsl, htp, qTruthy, htp0, hbreach, hT, dictErase]

/-- C3 witness: the live confirmed-submission case of the theorem on both
exit paths — a stop-loss breach (long 20 shares at entry 50, stop 49, price
48) and a take-profit breach (long 20 shares at entry 50, target 52, price
53, consuming the second oracle pair). -/
theorem C3_witness :
    (position_monitor_step defaultRiskConfig .live
        ⟨fun q => if q = "A" then some ⟨20, 50, some 49, none, none⟩ else none,
         ⟨0, 0, 0, fun _ => none, fun _ => none⟩, 0⟩
        "A" 20 48 (some 48) (some 7) none none).1.active_positions "A"
      = none ∧
    (position_monitor_step defaultRiskConfig .live
        ⟨fun q => if q = "A" then some ⟨20, 50, none, some 52, none⟩ else none,
         ⟨0, 0, 0, fun _ => none, fun _ => none⟩, 0⟩
        "A" 20 53 none none (some 53) (some 9)).1.active_positions "A"
      = none :=
  ⟨(((C3_close_discipline defaultRiskConfig
      ⟨fun q => if q = "A" then some ⟨20, 50, some 49, none, none⟩ else none,
       ⟨0, 0, 0, fun _ => none, fun _ => none⟩, 0⟩
      "A" ⟨20, 50, some 49, none, none⟩ 20 48 (by simp) (by norm_num)).1
      49 rfl rfl (by norm_num) rfl (by norm_num)).1 48 7).1,
   (((C3_close_discipline defaultRiskConfig
      ⟨fun q => if q = "A" then some ⟨20, 50, none, some 52, none⟩ else none,
       ⟨0, 0, 0, fun _ => none, fun _ => none⟩, 0⟩
      "A" ⟨20, 50, none, some 52, none⟩ 20 53 (by simp) (by norm_num)).2
      52 rfl rfl (by norm_num) (by norm_num)).1 53 9).1⟩

end StockData
